import Mathlib

/-!
Shallow embedding of the UrbanFlow Navigator trip-planning core.

The embedding follows `src/services/google-maps.ts` (geocoding, directions,
places), the weather stub (`getWeatherForecast`), and the orchestration flow
`src/ai/flows/generate-trip-plan.ts`.  Network calls are modelled by passing
the provider's decoded JSON response (or, for the orchestrator, the outcome of
each service call) as an explicit argument; JavaScript exceptions are modelled
with `Except String`, carrying the thrown error message.  Floating-point
numbers are idealised as rationals, except for the trigonometric radius
computation of `findAttractionsNearRoute`, which is idealised over the reals.
-/

namespace UrbanFlow

/-- Embeds the `Coordinate` interface of `google-maps.ts`: a latitude/longitude
pair. -/
structure Coordinate where
  lat : ℚ
  lng : ℚ
  deriving DecidableEq, Repr

/-- Embeds the bounding-box field of `Route` (`{northeast, southwest}`). -/
structure RouteBounds where
  northeast : Coordinate
  southwest : Coordinate
  deriving DecidableEq, Repr

/-- Embeds the `Route` interface of `google-maps.ts`.  `bounds` is optional
because `findAttractionsNearRoute` explicitly guards against a missing
bounding box (`if (!route.bounds)`). -/
structure Route where
  path : List Coordinate
  distanceMeters : ℕ
  durationSeconds : ℕ
  bounds : Option RouteBounds
  waypointsOrder : Option (List ℕ)
  deriving DecidableEq, Repr

/-- Embeds the `Attraction` interface of `google-maps.ts`. -/
structure Attraction where
  name : String
  description : String
  location : Coordinate
  placeId : Option String
  rating : Option ℚ
  types : Option (List String)
  deriving DecidableEq, Repr

/-- Embeds one element of the Directions API `routes[i].legs` array; only the
`distance.value` and `duration.value` fields are consumed by the code, each
behind a `?.value || 0` fallback. -/
structure RouteLeg where
  distance : Option ℕ
  duration : Option ℕ
  deriving DecidableEq, Repr

/-- Embeds one element of the Directions API `routes` array, restricted to the
fields the code reads: `legs`, `overview_polyline.points`, `bounds`, and
`waypoint_order`. -/
structure DirRoute where
  legs : Option (List RouteLeg)
  overviewPolyline : Option String
  bounds : Option RouteBounds
  waypointOrder : Option (List ℕ)
  deriving DecidableEq, Repr

/-- Embeds the decoded Directions API response body. -/
structure DirectionsResponse where
  status : String
  errorMessage : Option String
  routes : List DirRoute
  deriving DecidableEq, Repr

/-- Embeds one element of the Places API `results` array, restricted to the
fields the code reads. -/
structure Place where
  name : String
  vicinity : Option String
  types : Option (List String)
  location : Coordinate
  placeId : Option String
  rating : Option ℚ
  businessStatus : Option String
  deriving DecidableEq, Repr

/-- Embeds the decoded Places API (nearby search) response body. -/
structure PlacesResponse where
  status : String
  errorMessage : Option String
  results : Option (List Place)
  deriving DecidableEq, Repr

/-- Embeds one element of the Geocoding API `results` array, restricted to the
fields the code reads (`geometry.location` and `formatted_address`). -/
structure GeoResult where
  location : Coordinate
  formattedAddress : String
  deriving DecidableEq, Repr

/-- Embeds the decoded Geocoding API response body. -/
structure GeoResponse where
  status : String
  errorMessage : Option String
  results : Option (List GeoResult)
  deriving DecidableEq, Repr

/-- The exact server-configuration error message `SERVER_CONFIG_ERROR_MSG` of
`google-maps.ts`, thrown whenever `GOOGLE_MAPS_API_KEY` is absent. -/
def SERVER_CONFIG_ERROR_MSG : String :=
  "Server Configuration Error: Google Maps API key (GOOGLE_MAPS_API_KEY) is not configured. Please ensure it is correctly set in your `.env.local` file and that the server has been restarted."

/-! ## Directions service (`findShortestRoute`) -/

/-- Embeds JavaScript `String.prototype.startsWith`, used for waypoint
validation and for the message-prefix dispatch of the catch blocks; stated on
the character data so that it evaluates by reduction. -/
def strStartsWith (s pre : String) : Bool :=
  pre.data.isPrefixOf s.data

/-- Embeds the waypoint validation of `findShortestRoute`: only strings with
the `place_id:` prefix are kept and forwarded to the provider. -/
def validWaypoints (waypoints : List String) : List String :=
  waypoints.filter (fun wp => strStartsWith wp "place_id:")

/-- Embeds the error message chosen by `findShortestRoute` for a non-`OK`
Directions status (the chain of `if (data.status === ...)` branches). -/
def directionsStatusError (waypoints : Option (List String)) (resp : DirectionsResponse) : String :=
  if resp.status = "REQUEST_DENIED" then
    "Directions API Error: Request Denied. " ++ resp.errorMessage.getD "Check if the Directions API is enabled and authorized for your GOOGLE_MAPS_API_KEY."
  else if resp.status = "ZERO_RESULTS" ∧ 0 < (waypoints.getD []).length then
    "Directions API Error: No route found including the specified waypoints. Status: " ++ resp.status ++ "."
  else if resp.status = "INVALID_REQUEST" then
    "Directions API Error: Invalid Request. " ++ resp.errorMessage.getD "Check origin, destination, and waypoint format."
  else if resp.status = "MAX_WAYPOINTS_EXCEEDED" then
    "Directions API Error: Too many waypoints provided. " ++ resp.errorMessage.getD ""
  else if resp.status = "OVER_QUERY_LIMIT" then
    "Directions API Error: Usage limit exceeded. " ++ resp.errorMessage.getD "Check your Google Cloud Console quotas."
  else
    "Could not find route. Status: " ++ resp.status ++ ". " ++ resp.errorMessage.getD ""

/-- Embeds the body of the `try` block of `findShortestRoute`: status check,
empty-`routes` check, required-field check, then leg aggregation, polyline
decoding (through the supplied decoder) and `Route` assembly. -/
def findShortestRouteTry (waypoints : Option (List String))
    (decodePolyline : String → List Coordinate)
    (resp : DirectionsResponse) : Except String Route :=
  if resp.status ≠ "OK" then
    .error (directionsStatusError waypoints resp)
  else
    match resp.routes with
    | [] => .error "Could not find route. Status: ZERO_RESULTS."
    | rt :: _ =>
      if rt.legs.isNone || rt.overviewPolyline.isNone || rt.bounds.isNone then
        .error "Directions API response missing required fields."
      else
        .ok { path := decodePolyline (rt.overviewPolyline.getD "")
              distanceMeters := ((rt.legs.getD []).map (fun leg => leg.distance.getD 0)).sum
              durationSeconds := ((rt.legs.getD []).map (fun leg => leg.duration.getD 0)).sum
              bounds := rt.bounds
              waypointsOrder := rt.waypointOrder }

/-- Embeds the `catch` block of `findShortestRoute`: the configuration error
and the specifically-prefixed API errors are rethrown unchanged; anything else
is wrapped as a fetch failure. -/
def directionsCatch (r : Except String Route) : Except String Route :=
  match r with
  | .ok v => .ok v
  | .error e =>
    if e = SERVER_CONFIG_ERROR_MSG then .error e
    else if strStartsWith e "Could not find route" || strStartsWith e "Directions API Error:" then .error e
    else .error ("Failed to fetch directions: " ++ e)

/-- Embeds `findShortestRoute` of `google-maps.ts`.  `keyConfigured` models the
presence of `GOOGLE_MAPS_API_KEY` (checked by `checkApiKey` before anything
else), `decodePolyline` models the `@googlemaps/polyline-codec` decoder, and
`resp` models the decoded network response.  The unused coordinate arguments
mirror the source signature: they only feed the request URL. -/
def findShortestRoute (keyConfigured : Bool) (_origin _destination : Coordinate)
    (waypoints : Option (List String)) (decodePolyline : String → List Coordinate)
    (resp : DirectionsResponse) : Except String Route :=
  if ¬ keyConfigured then .error SERVER_CONFIG_ERROR_MSG
  else directionsCatch (findShortestRouteTry waypoints decodePolyline resp)

/-! ## Geocoding service -/

/-- Embeds the error message chosen by `getCoordinatesFromAddress` for a
non-`OK` Geocoding status. -/
def geocodeStatusError (address : String) (resp : GeoResponse) : String :=
  if resp.status = "REQUEST_DENIED" then
    "Geocoding API Error: Request Denied for address \"" ++ address ++ "\". " ++ resp.errorMessage.getD "Check if the Geocoding API is enabled and authorized for your GOOGLE_MAPS_API_KEY."
  else if resp.status = "ZERO_RESULTS" then
    "Geocoding API Error: No results found for address \"" ++ address ++ "\". Please ensure the address is valid."
  else if resp.status = "OVER_QUERY_LIMIT" then
    "Geocoding API Error: Usage limit exceeded. " ++ resp.errorMessage.getD "Check your Google Cloud Console quotas."
  else
    "Could not geocode address \"" ++ address ++ "\". Status: " ++ resp.status ++ ". " ++ resp.errorMessage.getD ""

/-- Embeds the body of the `try` block of `getCoordinatesFromAddress`. -/
def getCoordinatesFromAddressTry (address : String) (resp : GeoResponse) : Except String Coordinate :=
  if resp.status ≠ "OK" then
    .error (geocodeStatusError address resp)
  else
    match resp.results with
    | none => .error ("Could not geocode address \"" ++ address ++ "\". Status: ZERO_RESULTS (unexpected).")
    | some [] => .error ("Could not geocode address \"" ++ address ++ "\". Status: ZERO_RESULTS (unexpected).")
    | some (r :: _) => .ok r.location

/-- Embeds the `catch` block of `getCoordinatesFromAddress`. -/
def geocodeCatch (r : Except String Coordinate) : Except String Coordinate :=
  match r with
  | .ok v => .ok v
  | .error e =>
    if e = SERVER_CONFIG_ERROR_MSG then .error e
    else if strStartsWith e "Could not geocode address" || strStartsWith e "Geocoding API Error:" then .error e
    else .error ("Failed to geocode address: " ++ e)

/-- Embeds `getCoordinatesFromAddress` of `google-maps.ts`. -/
def getCoordinatesFromAddress (keyConfigured : Bool) (address : String)
    (resp : GeoResponse) : Except String Coordinate :=
  if ¬ keyConfigured then .error SERVER_CONFIG_ERROR_MSG
  else geocodeCatch (getCoordinatesFromAddressTry address resp)

/-- Embeds the error message chosen by `getAddressFromCoordinates` for a
non-`OK` status. -/
def reverseGeocodeStatusError (resp : GeoResponse) : String :=
  if resp.status = "REQUEST_DENIED" then
    "Reverse Geocoding API Error: Request Denied for coordinates. " ++ resp.errorMessage.getD "Check if the Geocoding API is enabled and authorized for your GOOGLE_MAPS_API_KEY."
  else if resp.status = "ZERO_RESULTS" then
    "Reverse Geocoding API Error: No address found for coordinates."
  else if resp.status = "OVER_QUERY_LIMIT" then
    "Reverse Geocoding API Error: Usage limit exceeded. " ++ resp.errorMessage.getD "Check your Google Cloud Console quotas."
  else
    "Could not reverse geocode coordinates. Status: " ++ resp.status ++ ". " ++ resp.errorMessage.getD ""

/-- Embeds the body of the `try` block of `getAddressFromCoordinates`. -/
def getAddressFromCoordinatesTry (resp : GeoResponse) : Except String String :=
  if resp.status ≠ "OK" then
    .error (reverseGeocodeStatusError resp)
  else
    match resp.results with
    | none => .error "Could not find address for coordinates. Status: ZERO_RESULTS (unexpected)."
    | some [] => .error "Could not find address for coordinates. Status: ZERO_RESULTS (unexpected)."
    | some (r :: _) => .ok r.formattedAddress

/-- Embeds the `catch` block of `getAddressFromCoordinates`. -/
def reverseGeocodeCatch (r : Except String String) : Except String String :=
  match r with
  | .ok v => .ok v
  | .error e =>
    if e = SERVER_CONFIG_ERROR_MSG then .error e
    else if strStartsWith e "Could not reverse geocode" || strStartsWith e "Reverse Geocoding API Error:" then .error e
    else .error ("Failed to reverse geocode coordinates: " ++ e)

/-- Embeds `getAddressFromCoordinates` of `google-maps.ts`. -/
def getAddressFromCoordinates (keyConfigured : Bool) (_coordinate : Coordinate)
    (resp : GeoResponse) : Except String String :=
  if ¬ keyConfigured then .error SERVER_CONFIG_ERROR_MSG
  else reverseGeocodeCatch (getAddressFromCoordinatesTry resp)

/-! ## Places service (`findAttractionsNearCoordinate`) -/

/-- Embeds the post-filter of `findAttractionsNearCoordinate`:
`place.rating && place.rating >= 3.5 && place.business_status === 'OPERATIONAL'`.
The first conjunct is JavaScript truthiness of the rating (present and
non-zero). -/
def keepPlace (p : Place) : Bool :=
  (match p.rating with
   | some r => decide (r ≠ 0) && decide ((3.5 : ℚ) ≤ r)
   | none => false)
  && (p.businessStatus == some "OPERATIONAL")

/-- Embeds the description fallback chain of `findAttractionsNearCoordinate`:
`place.vicinity || joined-cleaned-types || 'Notable place'`. -/
def describePlace (p : Place) : String :=
  if p.vicinity.getD "" ≠ "" then p.vicinity.getD ""
  else
    match p.types with
    | none => "Notable place"
    | some ts =>
      let s := (String.intercalate ", "
        (ts.filter (fun t => t ≠ "point_of_interest" && t ≠ "establishment"))).replace "_" " "
      if s = "" then "Notable place" else s

/-- Embeds the `.map` step of `findAttractionsNearCoordinate` turning a Places
result into an `Attraction`. -/
def toAttraction (p : Place) : Attraction :=
  { name := p.name
    description := describePlace p
    location := p.location
    placeId := p.placeId
    rating := p.rating
    types := p.types }

/-- Embeds the error message chosen by `findAttractionsNearCoordinate` for a
failing Places status. -/
def placesStatusError (resp : PlacesResponse) : String :=
  if resp.status = "REQUEST_DENIED" then
    "Places API Error: Request Denied. " ++ resp.errorMessage.getD "Check if the Places API is enabled and authorized for your GOOGLE_MAPS_API_KEY."
  else if resp.status = "INVALID_REQUEST" then
    "Places API Error: Invalid Request. " ++ resp.errorMessage.getD "Check search parameters."
  else if resp.status = "OVER_QUERY_LIMIT" then
    "Places API Error: Usage limit exceeded. " ++ resp.errorMessage.getD "Check your Google Cloud Console quotas."
  else
    "Places API request failed. Status: " ++ resp.status ++ ". " ++ resp.errorMessage.getD ""

/-- Embeds the body of the `try` block of `findAttractionsNearCoordinate`:
status check, empty-result shortcut, then filter / `slice(0, 15)` / map. -/
def findAttractionsNearCoordinateTry (resp : PlacesResponse) : Except String (List Attraction) :=
  if resp.status ≠ "OK" ∧ resp.status ≠ "ZERO_RESULTS" then
    .error (placesStatusError resp)
  else if resp.status = "ZERO_RESULTS" ∨ resp.results = none then
    .ok []
  else
    .ok ((((resp.results.getD []).filter keepPlace).take 15).map toAttraction)

/-- Embeds the `catch` block of `findAttractionsNearCoordinate`. -/
def placesCatch (r : Except String (List Attraction)) : Except String (List Attraction) :=
  match r with
  | .ok v => .ok v
  | .error e =>
    if e = SERVER_CONFIG_ERROR_MSG then .error e
    else if strStartsWith e "Places API Error:" then .error e
    else .error ("Failed to find attractions: " ++ e)

/-- Embeds `findAttractionsNearCoordinate` of `google-maps.ts`.  The center
and radius arguments only feed the request URL, mirroring the source. -/
def findAttractionsNearCoordinate (keyConfigured : Bool) (_center : Coordinate)
    (_radius : ℤ) (resp : PlacesResponse) : Except String (List Attraction) :=
  if ¬ keyConfigured then .error SERVER_CONFIG_ERROR_MSG
  else placesCatch (findAttractionsNearCoordinateTry resp)

/-! ## Route-level attraction search (`findAttractionsNearRoute`) -/

/-- Embeds JavaScript `Math.atan2` (idealised over the reals), used by the
Haversine computation in `findAttractionsNearRoute`. -/
noncomputable def atan2 (y x : ℝ) : ℝ :=
  if 0 < x then Real.arctan (y / x)
  else if x < 0 then
    (if 0 ≤ y then Real.arctan (y / x) + Real.pi else Real.arctan (y / x) - Real.pi)
  else if 0 < y then Real.pi / 2
  else if y < 0 then -(Real.pi / 2)
  else 0

/-- Embeds the bounding-box center computation of `findAttractionsNearRoute`
(arithmetic midpoint of the northeast and southwest corners, per axis). -/
def boundsCenter (b : RouteBounds) : Coordinate :=
  { lat := (b.northeast.lat + b.southwest.lat) / 2
    lng := (b.northeast.lng + b.southwest.lng) / 2 }

/-- Embeds the Haversine diagonal computation of `findAttractionsNearRoute`:
great-circle distance between the southwest and northeast corners of the
bounding box with Earth radius `6371e3` meters. -/
noncomputable def diagonalDistance (b : RouteBounds) : ℝ :=
  let R : ℝ := 6371000
  let phi1 := (b.southwest.lat : ℝ) * Real.pi / 180
  let phi2 := (b.northeast.lat : ℝ) * Real.pi / 180
  let deltaPhi := ((b.northeast.lat : ℝ) - (b.southwest.lat : ℝ)) * Real.pi / 180
  let deltaLambda := ((b.northeast.lng : ℝ) - (b.southwest.lng : ℝ)) * Real.pi / 180
  let a := Real.sin (deltaPhi / 2) * Real.sin (deltaPhi / 2) +
      Real.cos phi1 * Real.cos phi2 * Real.sin (deltaLambda / 2) * Real.sin (deltaLambda / 2)
  let c := 2 * atan2 (Real.sqrt a) (Real.sqrt (1 - a))
  R * c

/-- Embeds the radius derivation of `findAttractionsNearRoute`:
`Math.min(Math.max(diagonalDistance / 1.8, 10000), 50000)`. -/
noncomputable def searchRadius (b : RouteBounds) : ℝ :=
  min (max (diagonalDistance b / 1.8) 10000) 50000

/-- Embeds the two identical `catch` blocks of `findAttractionsNearRoute`: the
configuration error is rethrown, every other failure is replaced by an empty
attraction list. -/
def nearRouteCatch (r : Except String (List Attraction)) : Except String (List Attraction) :=
  match r with
  | .ok v => .ok v
  | .error e => if e = SERVER_CONFIG_ERROR_MSG then .error e else .ok []

/-- Embeds `findAttractionsNearRoute` of `google-maps.ts`.  `near` models the
inner awaited call to `findAttractionsNearCoordinate` as a function from the
chosen search center and (rounded) radius to that call's outcome. -/
noncomputable def findAttractionsNearRoute
    (near : Coordinate → ℤ → Except String (List Attraction))
    (route : Route) : Except String (List Attraction) :=
  match route.bounds with
  | none =>
    if 0 < route.path.length then
      nearRouteCatch (near (route.path.getD (route.path.length / 2) ⟨0, 0⟩) 20000)
    else
      .ok []
  | some b =>
    nearRouteCatch (near (boundsCenter b) (round (searchRadius b)))

/-! ## Weather service (`open-weather-map.ts` stub) -/

/-- Embeds the `Location` interface of the weather service module. -/
structure Location where
  lat : ℚ
  lng : ℚ
  deriving DecidableEq, Repr

/-- Embeds one entry of the `fiveDayOutlook` array of `WeatherForecast`. -/
structure OutlookDay where
  date : String
  temperatureCelsius : ℚ
  conditions : String
  deriving DecidableEq, Repr

/-- Embeds the `WeatherForecast` interface of the weather service module. -/
structure WeatherForecast where
  currentTemperatureCelsius : ℚ
  conditions : String
  fiveDayOutlook : List OutlookDay
  deriving DecidableEq, Repr

/-- Embeds `getWeatherForecast` of the weather service module: the body is a
hard-coded return value (the OpenWeatherMap call is an unimplemented TODO), so
the function ignores its argument, consults no credential, and cannot fail. -/
def getWeatherForecast (_location : Location) : WeatherForecast :=
  { currentTemperatureCelsius := 23
    conditions := "Partly Cloudy"
    fiveDayOutlook :=
      [ { date := "2024-07-29", temperatureCelsius := 25, conditions := "Sunny" },
        { date := "2024-07-30", temperatureCelsius := 27, conditions := "Sunny" },
        { date := "2024-07-31", temperatureCelsius := 26, conditions := "Cloudy" },
        { date := "2024-08-01", temperatureCelsius := 24, conditions := "Rainy" },
        { date := "2024-08-02", temperatureCelsius := 23, conditions := "Partly Cloudy" } ] }

/-! ## Orchestration flow (`generate-trip-plan.ts`) -/

/-- Embeds the `routeInfo` summary of the prompt input. -/
structure RouteInfo where
  distanceKm : ℤ
  durationMinutes : ℤ
  hasWaypoints : Bool
  deriving DecidableEq, Repr

/-- Embeds the `weatherForecast` summary of the prompt input. -/
structure WeatherSummary where
  currentTemperatureCelsius : ℚ
  currentConditions : String
  outlookSummary : String
  deriving DecidableEq, Repr

/-- Embeds one condensed attraction of the prompt input (name, primary type,
rating). -/
structure PromptAttraction where
  name : String
  type : Option String
  rating : Option ℚ
  deriving DecidableEq, Repr

/-- Embeds the full prompt input assembled in step 5 of
`generateTripPlanFlow`. -/
structure PromptInput where
  originAddress : String
  destinationAddress : String
  desiredDepartureTime : String
  routeInfo : RouteInfo
  weatherSummary : WeatherSummary
  attractions : List PromptAttraction
  deriving DecidableEq, Repr

/-- Embeds the reasoning engine's structured output (`suggestedDepartureTime`
and `reasoning`). -/
structure AIOutput where
  suggestedDepartureTime : String
  reasoning : String
  deriving DecidableEq, Repr

/-- Embeds `GenerateTripPlanInput`. -/
structure TripPlanInput where
  originAddress : String
  destinationAddress : String
  departureTime : String
  waypoints : Option (List String)
  deriving DecidableEq, Repr

/-- Embeds `GenerateTripPlanOutput`. -/
structure TripPlanOutput where
  originAddress : String
  destinationAddress : String
  suggestedDepartureTime : String
  reasoning : String
  route : Route
  weatherForecast : WeatherForecast
  nearbyAttractions : List Attraction
  deriving DecidableEq, Repr

/-- Embeds the attraction condensation of step 5: filter out attractions whose
place id is one of the requested waypoints (`att.placeId || ''` against
`input.waypoints?.includes`), then `slice(0, 5)`. -/
def filteredAttractions (waypoints : Option (List String)) (attrs : List Attraction) : List Attraction :=
  (attrs.filter (fun att => ! ((waypoints.getD []).contains (att.placeId.getD "")))).take 5

/-- Embeds the `.map` step of the attraction condensation (name, readable
primary type, rating). -/
def promptAttractions (waypoints : Option (List String)) (attrs : List Attraction) : List PromptAttraction :=
  (filteredAttractions waypoints attrs).map (fun att =>
    { name := att.name
      type := ((att.types.getD []).head?).map (fun t => t.replace "_" " ")
      rating := att.rating })

/-- Embeds the whole prompt-input assembly of step 5 of
`generateTripPlanFlow`.  `weekday` models
`new Date(d).toLocaleDateString(undefined, { weekday: "short" })`. -/
def promptInputOf (weekday : String → String) (input : TripPlanInput) (route : Route)
    (w : WeatherForecast) (attrs : List Attraction) : PromptInput :=
  { originAddress := input.originAddress
    destinationAddress := input.destinationAddress
    desiredDepartureTime := input.departureTime
    routeInfo :=
      { distanceKm := round ((route.distanceMeters : ℚ) / 1000)
        durationMinutes := round ((route.durationSeconds : ℚ) / 60)
        hasWaypoints := decide (0 < (input.waypoints.getD []).length) }
    weatherSummary :=
      { currentTemperatureCelsius := w.currentTemperatureCelsius
        currentConditions := w.conditions
        outlookSummary :=
          let s := String.intercalate ", "
            (w.fiveDayOutlook.map (fun day => weekday day.date ++ ": " ++ day.conditions))
          if s = "" then "No outlook available." else s }
    attractions := promptAttractions input.waypoints attrs }

/-- Embeds the collaborators awaited by `generateTripPlanFlow`: the geocoder,
the route finder, the route-level attraction search, the reasoning engine
(`none` models a missing/invalid structured output), and the locale weekday
formatter. -/
structure FlowEnv where
  geocode : String → Except String Coordinate
  findRoute : Coordinate → Coordinate → List String → Except String Route
  nearAttractions : Route → Except String (List Attraction)
  ai : PromptInput → Option AIOutput
  weekday : String → String

/-- Embeds the body of the `try` block of `generateTripPlanFlow`, steps 1-7:
geocode both addresses, compute the route through `place_id:`-prefixed
waypoints, fetch weather (total, per the stub), fetch attractions, build the
condensed prompt input, validate the reasoning output, assemble the result. -/
def generateTripPlanSteps (env : FlowEnv) (input : TripPlanInput) : Except String TripPlanOutput :=
  match env.geocode input.originAddress with
  | .error e => .error e
  | .ok originCoord =>
    match env.geocode input.destinationAddress with
    | .error e => .error e
    | .ok destinationCoord =>
      match env.findRoute originCoord destinationCoord
          ((input.waypoints.getD []).map (fun id => "place_id:" ++ id)) with
      | .error e => .error e
      | .ok route =>
        let weatherForecast := getWeatherForecast { lat := originCoord.lat, lng := originCoord.lng }
        match env.nearAttractions route with
        | .error e => .error e
        | .ok nearbyAttractions =>
          match env.ai (promptInputOf env.weekday input route weatherForecast nearbyAttractions) with
          | none => .error "AI failed to generate a valid suggestion or reasoning."
          | some output =>
            if output.suggestedDepartureTime = "" || output.reasoning = "" then
              .error "AI failed to generate a valid suggestion or reasoning."
            else
              .ok { originAddress := input.originAddress
                    destinationAddress := input.destinationAddress
                    suggestedDepartureTime := output.suggestedDepartureTime
                    reasoning := output.reasoning
                    route := route
                    weatherForecast := weatherForecast
                    nearbyAttractions := nearbyAttractions }

/-- Embeds `generateTripPlanFlow` including its `catch` block, which re-wraps
any thrown message as a trip-plan failure. -/
def generateTripPlanFlow (env : FlowEnv) (input : TripPlanInput) : Except String TripPlanOutput :=
  match generateTripPlanSteps env input with
  | .ok v => .ok v
  | .error e => .error ("Trip plan generation failed: " ++ e)

/-! ## Helper lemmas -/

theorem nearRouteCatch_error {r : Except String (List Attraction)} {e : String}
    (h : nearRouteCatch r = .error e) : e = SERVER_CONFIG_ERROR_MSG ∧ r = .error e := by
  cases r with
  | ok v => simp [nearRouteCatch] at h
  | error f =>
    by_cases hc : f = SERVER_CONFIG_ERROR_MSG
    · simp [nearRouteCatch, hc] at h
      exact ⟨h.symm, by rw [hc, h]⟩
    · simp [nearRouteCatch, hc] at h

theorem nearRouteCatch_of_error {e : String} (hne : e ≠ SERVER_CONFIG_ERROR_MSG) :
    nearRouteCatch (.error e) = .ok [] := by
  simp [nearRouteCatch, hne]

/-! ## C10 -/

/-- C10: `getWeatherForecast` ignores its location argument and always returns
the same fixed forecast: current temperature 23°C, conditions "Partly Cloudy",
and the hard-coded 5-entry outlook for 2024-07-29 through 2024-08-02; being a
total function of its argument it never fails and is deterministic. -/
theorem getWeatherForecast_constant :
    ∀ loc loc' : Location,
      getWeatherForecast loc = getWeatherForecast loc' ∧
      (getWeatherForecast loc).currentTemperatureCelsius = 23 ∧
      (getWeatherForecast loc).conditions = "Partly Cloudy" ∧
      (getWeatherForecast loc).fiveDayOutlook =
        [ { date := "2024-07-29", temperatureCelsius := 25, conditions := "Sunny" },
          { date := "2024-07-30", temperatureCelsius := 27, conditions := "Sunny" },
          { date := "2024-07-31", temperatureCelsius := 26, conditions := "Cloudy" },
          { date := "2024-08-01", temperatureCelsius := 24, conditions := "Rainy" },
          { date := "2024-08-02", temperatureCelsius := 23, conditions := "Partly Cloudy" } ] :=
  fun _ _ => ⟨rfl, rfl, rfl, rfl⟩

/-! ## C5 -/

/-- C5 (counterexample): the weather provider contradicts the claim.  Its
implementation is a hard-coded stub that consults no credential and cannot
fail, so with the weather credential absent the first weather call still
succeeds with the fixed forecast instead of failing with the configuration
error. -/
theorem getWeatherForecast_succeeds_without_credentials :
    getWeatherForecast { lat := 0, lng := 0 } =
      { currentTemperatureCelsius := 23
        conditions := "Partly Cloudy"
        fiveDayOutlook :=
          [ { date := "2024-07-29", temperatureCelsius := 25, conditions := "Sunny" },
            { date := "2024-07-30", temperatureCelsius := 27, conditions := "Sunny" },
            { date := "2024-07-31", temperatureCelsius := 26, conditions := "Cloudy" },
            { date := "2024-08-01", temperatureCelsius := 24, conditions := "Rainy" },
            { date := "2024-08-02", temperatureCelsius := 23, conditions := "Partly Cloudy" } ] } :=
  rfl

/-- C5 (amended): for the three Google-Maps-backed providers (geocoding,
routing, places) a missing `GOOGLE_MAPS_API_KEY` makes every call fail with
exactly `SERVER_CONFIG_ERROR_MSG`, independently of the network response
(hence before any network request matters), and never as a generic network
failure; the weather provider is a credential-free stub whose result is
independent of everything. -/
theorem unconfigured_guards_maps_providers :
    (∀ address resp, getCoordinatesFromAddress false address resp = .error SERVER_CONFIG_ERROR_MSG) ∧
    (∀ c resp, getAddressFromCoordinates false c resp = .error SERVER_CONFIG_ERROR_MSG) ∧
    (∀ o d wps dec resp, findShortestRoute false o d wps dec resp = .error SERVER_CONFIG_ERROR_MSG) ∧
    (∀ c rad resp, findAttractionsNearCoordinate false c rad resp = .error SERVER_CONFIG_ERROR_MSG) ∧
    (∀ loc loc', getWeatherForecast loc = getWeatherForecast loc') :=
  ⟨fun _ _ => rfl, fun _ _ => rfl, fun _ _ _ _ _ => rfl, fun _ _ _ => rfl, fun _ _ => rfl⟩

/-! ## C2 -/

/-- C2: for every bounding box, the search radius derived by
`findAttractionsNearRoute` equals the Haversine diagonal of the box divided by
1.8 and clamped to [10000, 50000], and both the real radius and the rounded
radius actually passed to `findAttractionsNearCoordinate` lie within
[10000, 50000] inclusive. -/
theorem searchRadius_clamped :
    ∀ b : RouteBounds,
      searchRadius b = max 10000 (min (diagonalDistance b / 1.8) 50000) ∧
      (10000 : ℝ) ≤ searchRadius b ∧ searchRadius b ≤ 50000 ∧
      (10000 : ℤ) ≤ round (searchRadius b) ∧ round (searchRadius b) ≤ 50000 := by
  intro b
  have hb : (10000 : ℝ) ≤ searchRadius b :=
    le_min (le_max_right _ _) (by norm_num)
  have ht : searchRadius b ≤ 50000 := min_le_right _ _
  refine ⟨?_, hb, ht, ?_, ?_⟩
  · rw [searchRadius, max_min_distrib_left, max_comm (10000 : ℝ),
      max_eq_right (by norm_num : (10000 : ℝ) ≤ 50000)]
  · have h10 : round ((10000 : ℕ) : ℝ) ≤ round (searchRadius b) := by
      rw [round_eq, round_eq]
      exact Int.floor_mono (by push_cast; linarith)
    calc (10000 : ℤ) = round ((10000 : ℕ) : ℝ) := (round_natCast 10000).symm
      _ ≤ round (searchRadius b) := h10
  · have h50 : round (searchRadius b) ≤ round ((50000 : ℕ) : ℝ) := by
      rw [round_eq, round_eq]
      exact Int.floor_mono (by push_cast; linarith)
    calc round (searchRadius b) ≤ round ((50000 : ℕ) : ℝ) := h50
      _ = 50000 := round_natCast 50000

/-! ## C4 -/

/-- C4: in `findAttractionsNearRoute`, the only error that can escape is the
configuration error; in both search branches (bounding-box center and
path-midpoint fallback) an inner failure equal to `SERVER_CONFIG_ERROR_MSG` is
rethrown, and any other inner failure is swallowed into an empty attraction
list. -/
theorem nearRoute_swallows_nonconfig :
    (∀ near route e, findAttractionsNearRoute near route = .error e →
        e = SERVER_CONFIG_ERROR_MSG) ∧
    (∀ near route b e, route.bounds = some b →
        near (boundsCenter b) (round (searchRadius b)) = .error e →
        (if e = SERVER_CONFIG_ERROR_MSG
          then findAttractionsNearRoute near route = .error e
          else findAttractionsNearRoute near route = .ok [])) ∧
    (∀ near route e, route.bounds = none → 0 < route.path.length →
        near (route.path.getD (route.path.length / 2) ⟨0, 0⟩) 20000 = .error e →
        (if e = SERVER_CONFIG_ERROR_MSG
          then findAttractionsNearRoute near route = .error e
          else findAttractionsNearRoute near route = .ok [])) := by
  refine ⟨?_, ?_, ?_⟩
  · intro near route e h
    unfold findAttractionsNearRoute at h
    cases hb : route.bounds with
    | none =>
      rw [hb] at h
      by_cases hp : 0 < route.path.length
      · rw [if_pos hp] at h
        exact (nearRouteCatch_error h).1
      · rw [if_neg hp] at h
        simp at h
    | some b =>
      rw [hb] at h
      exact (nearRouteCatch_error h).1
  · intro near route b e hb hn
    have hred : findAttractionsNearRoute near route =
        nearRouteCatch (near (boundsCenter b) (round (searchRadius b))) := by
      unfold findAttractionsNearRoute
      rw [hb]
    rw [hred, hn]
    by_cases hc : e = SERVER_CONFIG_ERROR_MSG
    · simp [nearRouteCatch, hc]
    · simp [nearRouteCatch, hc]
  · intro near route e hb hp hn
    have hred : findAttractionsNearRoute near route =
        nearRouteCatch (near (route.path.getD (route.path.length / 2) ⟨0, 0⟩) 20000) := by
      unfold findAttractionsNearRoute
      rw [hb, if_pos hp]
    rw [hred, hn]
    by_cases hc : e = SERVER_CONFIG_ERROR_MSG
    · simp [nearRouteCatch, hc]
    · simp [nearRouteCatch, hc]

/-- C4 (witness): a concrete route with a bounding box whose inner attraction
search fails with a transient (non-configuration) error still produces an
empty attraction list. -/
theorem nearRoute_swallows_nonconfig_witness :
    findAttractionsNearRoute (fun _ _ => .error "transient provider error")
      { path := [], distanceMeters := 0, durationSeconds := 0,
        bounds := some ⟨⟨1, 1⟩, ⟨0, 0⟩⟩, waypointsOrder := none } = .ok [] := by
  have h := nearRoute_swallows_nonconfig.2.1
    (fun _ _ => .error "transient provider error")
    { path := [], distanceMeters := 0, durationSeconds := 0,
      bounds := some ⟨⟨1, 1⟩, ⟨0, 0⟩⟩, waypointsOrder := none }
    ⟨⟨1, 1⟩, ⟨0, 0⟩⟩ "transient provider error" rfl rfl
  rwa [if_neg (by decide)] at h

/-! ## Directions inversion helpers -/

deriving instance DecidableEq for Except

theorem directionsCatch_ok {r : Except String Route} {v : Route} :
    directionsCatch r = .ok v ↔ r = .ok v := by
  cases r with
  | ok w => simp [directionsCatch]
  | error e =>
    simp only [directionsCatch]
    constructor
    · intro h
      split_ifs at h
    · intro h
      simp at h

theorem findShortestRouteTry_ok {wps : Option (List String)}
    {dec : String → List Coordinate} {resp : DirectionsResponse} {r : Route}
    (h : findShortestRouteTry wps dec resp = .ok r) :
    resp.status = "OK" ∧
    ∃ rt rest legs poly b, resp.routes = rt :: rest ∧
      rt.legs = some legs ∧ rt.overviewPolyline = some poly ∧ rt.bounds = some b ∧
      r = { path := dec poly
            distanceMeters := (legs.map (fun leg => leg.distance.getD 0)).sum
            durationSeconds := (legs.map (fun leg => leg.duration.getD 0)).sum
            bounds := some b
            waypointsOrder := rt.waypointOrder } := by
  unfold findShortestRouteTry at h
  split at h
  · simp at h
  · rename_i hs
    push_neg at hs
    refine ⟨hs, ?_⟩
    split at h
    · simp at h
    · rename_i rt rest hroutes
      split at h
      · simp at h
      · rename_i hmiss
        simp only [Bool.or_eq_true, Option.isNone_iff_eq_none, not_or] at hmiss
        obtain ⟨⟨hlegs, hpoly⟩, hbounds⟩ := hmiss
        obtain ⟨legs, hlegs⟩ := Option.ne_none_iff_exists'.mp hlegs
        obtain ⟨poly, hpoly⟩ := Option.ne_none_iff_exists'.mp hpoly
        obtain ⟨b, hbounds⟩ := Option.ne_none_iff_exists'.mp hbounds
        refine ⟨rt, rest, legs, poly, b, hroutes, hlegs, hpoly, hbounds, ?_⟩
        rw [hlegs, hpoly, hbounds] at h
        simp at h
        exact h.symm

theorem findShortestRoute_ok {kc : Bool} {o d : Coordinate} {wps : Option (List String)}
    {dec : String → List Coordinate} {resp : DirectionsResponse} {r : Route}
    (h : findShortestRoute kc o d wps dec resp = .ok r) :
    kc = true ∧ findShortestRouteTry wps dec resp = .ok r := by
  cases kc with
  | false => simp [findShortestRoute] at h
  | true =>
    refine ⟨rfl, ?_⟩
    unfold findShortestRoute at h
    rw [if_neg (by simp)] at h
    exact directionsCatch_ok.mp h

/-! ## C1 -/

/-- C1: whenever `findShortestRoute` succeeds, the returned route's
`distanceMeters` and `durationSeconds` are exactly the sums of the per-leg
`distance.value` / `duration.value` figures of the provider response's chosen
route (missing per-leg values defaulting to 0, per `?.value || 0`). -/
theorem route_totals_sum_legs :
    ∀ (kc : Bool) (o d : Coordinate) (wps : Option (List String))
      (dec : String → List Coordinate) (resp : DirectionsResponse) (r : Route),
      findShortestRoute kc o d wps dec resp = .ok r →
      ∃ rt rest legs, resp.routes = rt :: rest ∧ rt.legs = some legs ∧
        r.distanceMeters = (legs.map (fun leg => leg.distance.getD 0)).sum ∧
        r.durationSeconds = (legs.map (fun leg => leg.duration.getD 0)).sum := by
  intro kc o d wps dec resp r h
  obtain ⟨-, htry⟩ := findShortestRoute_ok h
  obtain ⟨-, rt, rest, legs, poly, b, hroutes, hlegs, -, -, hr⟩ := findShortestRouteTry_ok htry
  exact ⟨rt, rest, legs, hroutes, hlegs, by rw [hr], by rw [hr]⟩

/-- C1 (witness): a concrete successful call with two legs (1200 m + 300 s and
1300 m + 450 s) yields a route whose totals are the leg sums 2500 m and
750 s. -/
theorem route_totals_sum_legs_witness :
    ∃ rt rest legs,
      (DirectionsResponse.mk "OK" none
          [⟨some [⟨some 1200, some 300⟩, ⟨some 1300, some 450⟩], some "poly",
            some ⟨⟨1, 1⟩, ⟨0, 0⟩⟩, none⟩]).routes = rt :: rest ∧
      rt.legs = some legs ∧
      (Route.mk [] 2500 750 (some ⟨⟨1, 1⟩, ⟨0, 0⟩⟩) none).distanceMeters =
        (legs.map (fun leg => leg.distance.getD 0)).sum ∧
      (Route.mk [] 2500 750 (some ⟨⟨1, 1⟩, ⟨0, 0⟩⟩) none).durationSeconds =
        (legs.map (fun leg => leg.duration.getD 0)).sum :=
  route_totals_sum_legs true ⟨0, 0⟩ ⟨1, 1⟩ none (fun _ => [])
    (DirectionsResponse.mk "OK" none
      [⟨some [⟨some 1200, some 300⟩, ⟨some 1300, some 450⟩], some "poly",
        some ⟨⟨1, 1⟩, ⟨0, 0⟩⟩, none⟩])
    (Route.mk [] 2500 750 (some ⟨⟨1, 1⟩, ⟨0, 0⟩⟩) none)
    (by decide)

/-! ## C7 -/

/-- C7: if the Directions response (with `OK` status and a non-empty route
list) lacks `legs`, the overview polyline, or `bounds`, then
`findShortestRoute` fails with the missing-required-fields error (surfaced
through the catch block's fetch-failure wrapper) and returns no Route at
all. -/
theorem missing_fields_fatal :
    ∀ (o d : Coordinate) (wps : Option (List String))
      (dec : String → List Coordinate) (resp : DirectionsResponse)
      (rt : DirRoute) (rest : List DirRoute),
      resp.status = "OK" → resp.routes = rt :: rest →
      (rt.legs = none ∨ rt.overviewPolyline = none ∨ rt.bounds = none) →
      findShortestRoute true o d wps dec resp =
        .error "Failed to fetch directions: Directions API response missing required fields." := by
  intro o d wps dec resp rt rest hs hroutes hmiss
  have hcond : (rt.legs.isNone || rt.overviewPolyline.isNone || rt.bounds.isNone) = true := by
    rcases hmiss with h | h | h <;> simp [h]
  have htry : findShortestRouteTry wps dec resp =
      .error "Directions API response missing required fields." := by
    unfold findShortestRouteTry
    rw [if_neg (by simp [hs]), hroutes]
    simp [hcond]
  unfold findShortestRoute
  rw [if_neg (by simp), htry]
  rfl

/-- C7 (witness): a concrete `OK` response whose only route lacks `bounds`
makes `findShortestRoute` fail with the missing-required-fields error. -/
theorem missing_fields_fatal_witness :
    findShortestRoute true ⟨0, 0⟩ ⟨1, 1⟩ none (fun _ => [])
        (DirectionsResponse.mk "OK" none
          [⟨some [⟨some 100, some 60⟩], some "poly", none, none⟩]) =
      .error "Failed to fetch directions: Directions API response missing required fields." :=
  missing_fields_fatal ⟨0, 0⟩ ⟨1, 1⟩ none (fun _ => [])
    (DirectionsResponse.mk "OK" none
      [⟨some [⟨some 100, some 60⟩], some "poly", none, none⟩])
    ⟨some [⟨some 100, some 60⟩], some "poly", none, none⟩ [] rfl rfl (Or.inr (Or.inr rfl))

/-! ## C6 -/

/-- Modelled from the spec (§6, Routing external interface): a conforming
Directions response carries a stop-order permutation only if optimization was
requested (some valid waypoint was sent), and that order is then a permutation
of the indices of the waypoints actually sent.  `v` is the number of waypoints
sent to the provider. -/
def conformingDirections (v : ℕ) (resp : DirectionsResponse) : Bool :=
  resp.routes.all (fun rt =>
    match rt.waypointOrder with
    | some ord => decide (0 < v) && ord.isPerm (List.range v)
    | none => true)

/-- C6 (counterexample): with stops `["place_id:A", "bogus"]` (one of which is
dropped by waypoint validation) and a provider response that conforms to the
provider contract for the single waypoint actually sent, `findShortestRoute`
succeeds with `stopOrder = [0]`, which is not a permutation of
`[0, numStops) = [0, 2)` for the two input stops — refuting the claim as
stated. -/
theorem stopOrder_not_perm_of_input_stops :
    findShortestRoute true ⟨0, 0⟩ ⟨1, 1⟩ (some ["place_id:A", "bogus"]) (fun _ => [])
        (DirectionsResponse.mk "OK" none
          [⟨some [⟨some 100, some 60⟩], some "poly", some ⟨⟨1, 1⟩, ⟨0, 0⟩⟩, some [0]⟩]) =
      .ok (Route.mk [] 100 60 (some ⟨⟨1, 1⟩, ⟨0, 0⟩⟩) (some [0])) ∧
    (["place_id:A", "bogus"] : List String).length = 2 ∧
    ¬ ([0].Perm (List.range 2)) ∧
    conformingDirections (validWaypoints ["place_id:A", "bogus"]).length
      (DirectionsResponse.mk "OK" none
        [⟨some [⟨some 100, some 60⟩], some "poly", some ⟨⟨1, 1⟩, ⟨0, 0⟩⟩, some [0]⟩]) = true :=
  ⟨by decide, rfl, by decide, by decide⟩

/-- C6 (amended): assuming the provider response conforms to the documented
routing interface for the waypoints actually sent (the `place_id:`-prefixed
ones that survive validation), a successful `findShortestRoute` returns a
`stopOrder` that, if present, is a permutation of `[0, numValidStops)`, and
returns no `stopOrder` whenever no valid waypoint was sent (in particular when
the stops argument is empty or absent). -/
theorem stopOrder_perm_of_conforming :
    ∀ (kc : Bool) (o d : Coordinate) (wps : Option (List String))
      (dec : String → List Coordinate) (resp : DirectionsResponse) (r : Route),
      conformingDirections (validWaypoints (wps.getD [])).length resp = true →
      findShortestRoute kc o d wps dec resp = .ok r →
      (∀ ord, r.waypointsOrder = some ord →
        ord.Perm (List.range (validWaypoints (wps.getD [])).length)) ∧
      (validWaypoints (wps.getD []) = [] → r.waypointsOrder = none) := by
  intro kc o d wps dec resp r hconf hok
  obtain ⟨-, htry⟩ := findShortestRoute_ok hok
  obtain ⟨-, rt, rest, legs, poly, b, hroutes, -, -, -, hr⟩ := findShortestRouteTry_ok htry
  have hrwo : r.waypointsOrder = rt.waypointOrder := by rw [hr]
  have hrt : rt ∈ resp.routes := by rw [hroutes]; exact List.mem_cons_self _ _
  have hconf' := List.all_eq_true.mp hconf rt hrt
  constructor
  · intro ord hord
    rw [hrwo] at hord
    rw [hord] at hconf'
    simp only [Bool.and_eq_true, decide_eq_true_eq] at hconf'
    exact List.isPerm_iff.mp hconf'.2
  · intro hempty
    rw [hrwo]
    cases hwo : rt.waypointOrder with
    | none => rfl
    | some ord =>
      rw [hwo, hempty] at hconf'
      simp at hconf'

/-- C6 (witness): two valid `place_id:`-prefixed stops and a conforming
response with optimized order `[1, 0]` yield a `stopOrder` that is a
permutation of `[0, 2)`, and the no-valid-stops conclusion holds vacuously. -/
theorem stopOrder_perm_of_conforming_witness :
    (∀ ord,
      (Route.mk [] 100 60 (some ⟨⟨1, 1⟩, ⟨0, 0⟩⟩) (some [1, 0])).waypointsOrder = some ord →
      ord.Perm (List.range
        (validWaypoints ((some ["place_id:A", "place_id:B"] : Option (List String)).getD [])).length)) ∧
    (validWaypoints ((some ["place_id:A", "place_id:B"] : Option (List String)).getD []) = [] →
      (Route.mk [] 100 60 (some ⟨⟨1, 1⟩, ⟨0, 0⟩⟩) (some [1, 0])).waypointsOrder = none) :=
  stopOrder_perm_of_conforming true ⟨0, 0⟩ ⟨1, 1⟩ (some ["place_id:A", "place_id:B"])
    (fun _ => [])
    (DirectionsResponse.mk "OK" none
      [⟨some [⟨some 100, some 60⟩], some "poly", some ⟨⟨1, 1⟩, ⟨0, 0⟩⟩, some [1, 0]⟩])
    (Route.mk [] 100 60 (some ⟨⟨1, 1⟩, ⟨0, 0⟩⟩) (some [1, 0]))
    (by decide) (by decide)

/-! ## C3 -/

theorem placesCatch_ok {r : Except String (List Attraction)} {v : List Attraction} :
    placesCatch r = .ok v ↔ r = .ok v := by
  cases r with
  | ok w => simp [placesCatch]
  | error e =>
    simp only [placesCatch]
    constructor
    · intro h
      split_ifs at h
    · intro h
      simp at h

/-- C3: every successful result of `findAttractionsNearCoordinate` contains at
most 15 attractions, each originating from an operational provider result
rated at least 3.5 (so no entry has a rating below 3.5 or a non-operational
status), and the result is a sublist of the mapped provider results, i.e.
provider relevance order is preserved. -/
theorem nearCoordinate_filtered :
    ∀ (kc : Bool) (center : Coordinate) (radius : ℤ) (resp : PlacesResponse)
      (attrs : List Attraction),
      findAttractionsNearCoordinate kc center radius resp = .ok attrs →
      attrs.length ≤ 15 ∧
      (∀ a ∈ attrs, ∃ p, p ∈ resp.results.getD [] ∧ a = toAttraction p ∧
          p.businessStatus = some "OPERATIONAL" ∧
          ∃ rat, p.rating = some rat ∧ (3.5 : ℚ) ≤ rat) ∧
      (∀ a ∈ attrs, ∃ rat, a.rating = some rat ∧ (3.5 : ℚ) ≤ rat) ∧
      attrs.Sublist ((resp.results.getD []).map toAttraction) := by
  intro kc center radius resp attrs h
  cases kc with
  | false => simp [findAttractionsNearCoordinate] at h
  | true =>
    unfold findAttractionsNearCoordinate at h
    rw [if_neg (by simp)] at h
    have h' : findAttractionsNearCoordinateTry resp = .ok attrs := placesCatch_ok.mp h
    unfold findAttractionsNearCoordinateTry at h'
    split at h'
    · simp at h'
    · split at h'
      · have hnil : attrs = [] := by simpa using h'.symm
        subst hnil
        exact ⟨by simp, by simp, by simp, List.nil_sublist _⟩
      · have hattrs : attrs = (((resp.results.getD []).filter keepPlace).take 15).map toAttraction := by
          simpa using h'.symm
        subst hattrs
        have hmem : ∀ a ∈ (((resp.results.getD []).filter keepPlace).take 15).map toAttraction,
            ∃ p, p ∈ resp.results.getD [] ∧ a = toAttraction p ∧
              p.businessStatus = some "OPERATIONAL" ∧
              ∃ rat, p.rating = some rat ∧ (3.5 : ℚ) ≤ rat := by
          intro a ha
          rw [List.mem_map] at ha
          obtain ⟨p, hp, rfl⟩ := ha
          have hp' : p ∈ (resp.results.getD []).filter keepPlace := List.mem_of_mem_take hp
          rw [List.mem_filter] at hp'
          obtain ⟨hpl, hkeep⟩ := hp'
          unfold keepPlace at hkeep
          cases hrat : p.rating with
          | none => rw [hrat] at hkeep; simp at hkeep
          | some rat =>
            rw [hrat] at hkeep
            simp only [Bool.and_eq_true, decide_eq_true_eq, beq_iff_eq] at hkeep
            exact ⟨p, hpl, rfl, hkeep.2, rat, hrat, hkeep.1.2⟩
        refine ⟨?_, hmem, ?_, ?_⟩
        · rw [List.length_map]
          exact List.length_take_le _ _
        · intro a ha
          obtain ⟨p, -, rfl, -, rat, hrat, hge⟩ := hmem a ha
          exact ⟨rat, hrat, hge⟩
        · exact ((List.take_sublist _ _).trans (List.filter_sublist _)).map toAttraction

/-- Concrete operational place rated 4.0, kept by the post-filter. -/
def goodPlace : Place :=
  { name := "City Museum", vicinity := some "Downtown", types := some ["museum"],
    location := ⟨1, 2⟩, placeId := some "PID1", rating := some 4,
    businessStatus := some "OPERATIONAL" }

/-- Concrete operational place rated 3.0, dropped by the post-filter. -/
def lowRatedPlace : Place :=
  { name := "Small Kiosk", vicinity := some "Corner", types := some ["store"],
    location := ⟨3, 4⟩, placeId := some "PID2", rating := some 3,
    businessStatus := some "OPERATIONAL" }

theorem keepPlace_goodPlace : keepPlace goodPlace = true := by
  simp only [keepPlace, goodPlace, Bool.and_eq_true, decide_eq_true_eq, beq_iff_eq]
  norm_num

theorem keepPlace_lowRatedPlace : keepPlace lowRatedPlace = false := by
  simp only [keepPlace, lowRatedPlace, Bool.and_eq_false_iff, decide_eq_false_iff_not]
  left
  right
  norm_num

/-- C3 (witness): a concrete Places response with one passing and one
low-rated result yields exactly the mapped passing attraction, satisfying
every clause of the filtering theorem. -/
theorem nearCoordinate_filtered_witness :
    [toAttraction goodPlace].length ≤ 15 ∧
    (∀ a ∈ [toAttraction goodPlace],
      ∃ p, p ∈ (PlacesResponse.mk "OK" none (some [goodPlace, lowRatedPlace])).results.getD [] ∧
        a = toAttraction p ∧ p.businessStatus = some "OPERATIONAL" ∧
        ∃ rat, p.rating = some rat ∧ (3.5 : ℚ) ≤ rat) ∧
    (∀ a ∈ [toAttraction goodPlace], ∃ rat, a.rating = some rat ∧ (3.5 : ℚ) ≤ rat) ∧
    List.Sublist [toAttraction goodPlace]
      (((PlacesResponse.mk "OK" none (some [goodPlace, lowRatedPlace])).results.getD []).map
        toAttraction) :=
  nearCoordinate_filtered true ⟨0, 0⟩ 15000
    (PlacesResponse.mk "OK" none (some [goodPlace, lowRatedPlace]))
    [toAttraction goodPlace]
    (by simp [findAttractionsNearCoordinate, placesCatch, findAttractionsNearCoordinateTry,
      keepPlace_goodPlace, keepPlace_lowRatedPlace])

/-! ## C8 -/

/-- C8: if every stage before reasoning succeeds but the reasoning engine
returns no structured output, or an output whose suggested departure time or
reasoning is empty, then the orchestration fails with the
invalid-recommendation error (wrapped by the flow's catch block) and no
`TripPlanResult` is produced. -/
theorem invalid_recommendation_fatal :
    ∀ (env : FlowEnv) (input : TripPlanInput) (oc dc : Coordinate) (rt : Route)
      (attrs : List Attraction),
      env.geocode input.originAddress = .ok oc →
      env.geocode input.destinationAddress = .ok dc →
      env.findRoute oc dc ((input.waypoints.getD []).map (fun id => "place_id:" ++ id)) = .ok rt →
      env.nearAttractions rt = .ok attrs →
      (env.ai (promptInputOf env.weekday input rt
          (getWeatherForecast { lat := oc.lat, lng := oc.lng }) attrs) = none ∨
        ∃ o, env.ai (promptInputOf env.weekday input rt
            (getWeatherForecast { lat := oc.lat, lng := oc.lng }) attrs) = some o ∧
          (o.suggestedDepartureTime = "" ∨ o.reasoning = "")) →
      generateTripPlanFlow env input =
        .error "Trip plan generation failed: AI failed to generate a valid suggestion or reasoning." := by
  intro env input oc dc rt attrs h1 h2 h3 h4 h5
  have hsteps : generateTripPlanSteps env input =
      .error "AI failed to generate a valid suggestion or reasoning." := by
    simp only [generateTripPlanSteps, h1, h2, h3, h4]
    rcases h5 with h | ⟨o, hsome, hempty⟩
    · rw [h]
    · rw [hsome]
      rcases hempty with h | h <;> simp [h]
  simp [generateTripPlanFlow, hsteps]

/-- Fixed route used by the orchestration witnesses. -/
def witnessRoute : Route :=
  { path := [], distanceMeters := 1000, durationSeconds := 600,
    bounds := none, waypointsOrder := none }

/-- Fixed orchestration input used by the orchestration witnesses. -/
def flowInput : TripPlanInput :=
  { originAddress := "San Francisco, CA", destinationAddress := "Los Angeles, CA",
    departureTime := "2024-08-03T10:00:00Z", waypoints := none }

/-- Collaborators whose reasoning engine returns an empty suggested time. -/
def emptyAIEnv : FlowEnv :=
  { geocode := fun _ => .ok ⟨0, 0⟩
    findRoute := fun _ _ _ => .ok witnessRoute
    nearAttractions := fun _ => .ok []
    ai := fun _ => some { suggestedDepartureTime := "", reasoning := "Because traffic is light." }
    weekday := fun s => s }

/-- C8 (witness): with every provider succeeding and the reasoning engine
returning an empty suggested-time field, the concrete orchestration run fails
with the invalid-recommendation error. -/
theorem invalid_recommendation_fatal_witness :
    generateTripPlanFlow emptyAIEnv flowInput =
      .error "Trip plan generation failed: AI failed to generate a valid suggestion or reasoning." :=
  invalid_recommendation_fatal emptyAIEnv flowInput ⟨0, 0⟩ ⟨0, 0⟩ witnessRoute []
    rfl rfl rfl rfl
    (Or.inr ⟨{ suggestedDepartureTime := "", reasoning := "Because traffic is light." },
      rfl, Or.inl rfl⟩)

/-! ## C9 -/

/-- C9: the condensed attraction list passed to the reasoning engine contains
at most 5 entries and excludes every attraction whose place id is one of the
requested stops, while a successful orchestration returns the full unfiltered
attraction list together with the full route and full weather forecast. -/
theorem condensed_prompt_and_full_result :
    (∀ (wps : Option (List String)) (attrs : List Attraction),
      (promptAttractions wps attrs).length ≤ 5 ∧
      ∀ a ∈ filteredAttractions wps attrs, ∀ id, a.placeId = some id → id ∉ wps.getD []) ∧
    (∀ (env : FlowEnv) (input : TripPlanInput) (oc dc : Coordinate) (rt : Route)
        (attrs : List Attraction) (o : AIOutput),
      env.geocode input.originAddress = .ok oc →
      env.geocode input.destinationAddress = .ok dc →
      env.findRoute oc dc ((input.waypoints.getD []).map (fun id => "place_id:" ++ id)) = .ok rt →
      env.nearAttractions rt = .ok attrs →
      env.ai (promptInputOf env.weekday input rt
        (getWeatherForecast { lat := oc.lat, lng := oc.lng }) attrs) = some o →
      o.suggestedDepartureTime ≠ "" → o.reasoning ≠ "" →
      generateTripPlanFlow env input = .ok
        { originAddress := input.originAddress
          destinationAddress := input.destinationAddress
          suggestedDepartureTime := o.suggestedDepartureTime
          reasoning := o.reasoning
          route := rt
          weatherForecast := getWeatherForecast { lat := oc.lat, lng := oc.lng }
          nearbyAttractions := attrs }) := by
  constructor
  · intro wps attrs
    constructor
    · rw [promptAttractions, List.length_map]
      exact List.length_take_le _ _
    · intro a ha id hid hmem
      unfold filteredAttractions at ha
      have ha' := List.mem_of_mem_take ha
      rw [List.mem_filter] at ha'
      obtain ⟨-, hcond⟩ := ha'
      rw [hid] at hcond
      simp only [Option.getD_some, Bool.not_eq_true'] at hcond
      have helem : (wps.getD []).contains id = true := List.elem_iff.mpr hmem
      rw [helem] at hcond
      cases hcond
  · intro env input oc dc rt attrs o h1 h2 h3 h4 h5 h6 h7
    have hsteps : generateTripPlanSteps env input = .ok
        { originAddress := input.originAddress
          destinationAddress := input.destinationAddress
          suggestedDepartureTime := o.suggestedDepartureTime
          reasoning := o.reasoning
          route := rt
          weatherForecast := getWeatherForecast { lat := oc.lat, lng := oc.lng }
          nearbyAttractions := attrs } := by
      simp only [generateTripPlanSteps, h1, h2, h3, h4, h5]
      simp [h6, h7]
    simp [generateTripPlanFlow, hsteps]

/-- Sample attraction carried through the successful-orchestration witness. -/
def sampleAttraction : Attraction :=
  { name := "City Museum", description := "Downtown", location := ⟨1, 2⟩,
    placeId := some "PID1", rating := some 4, types := some ["museum"] }

/-- Collaborators whose reasoning engine returns a complete output. -/
def goodAIEnv : FlowEnv :=
  { geocode := fun _ => .ok ⟨0, 0⟩
    findRoute := fun _ _ _ => .ok witnessRoute
    nearAttractions := fun _ => .ok [sampleAttraction]
    ai := fun _ => some { suggestedDepartureTime := "2024-08-03T09:30:00Z",
                          reasoning := "Leave early to avoid traffic." }
    weekday := fun s => s }

/-- C9 (witness): a concrete successful orchestration run returns the full
attraction list, the full route, and the full weather forecast. -/
theorem condensed_prompt_and_full_result_witness :
    generateTripPlanFlow goodAIEnv flowInput = .ok
      { originAddress := flowInput.originAddress
        destinationAddress := flowInput.destinationAddress
        suggestedDepartureTime := "2024-08-03T09:30:00Z"
        reasoning := "Leave early to avoid traffic."
        route := witnessRoute
        weatherForecast := getWeatherForecast { lat := 0, lng := 0 }
        nearbyAttractions := [sampleAttraction] } :=
  condensed_prompt_and_full_result.2 goodAIEnv flowInput ⟨0, 0⟩ ⟨0, 0⟩ witnessRoute
    [sampleAttraction]
    { suggestedDepartureTime := "2024-08-03T09:30:00Z",
      reasoning := "Leave early to avoid traffic." }
    rfl rfl rfl rfl rfl (by decide) (by decide)

end UrbanFlow
